import Mathlib

/-!
Verification development for `src/TranscriptFetch.py`, a single-file Flask
service fetching and reformatting YouTube caption tracks.

The embedding is shallow: Python/JSON values are modelled by `PyVal`,
fallible Python evaluation (raised exceptions) by `PyM := Except String`
where the carried string models `str(e)`, and the two external effects
(the InnerTube `client.player` call and the `requests.get` caption
download followed by `ET.fromstring`) are parameters of the handler,
packaged in a `World`.  XML attribute values that the code feeds to
`float` are modelled as already-parsed rationals.
-/

namespace TranscriptFetch

/-- A Python/JSON-style value as produced by the InnerTube client and built
by the handler for `jsonify`.  Dictionaries are association lists in
insertion order. -/
inductive PyVal where
  | str : String → PyVal
  | num : Rat → PyVal
  | list : List PyVal → PyVal
  | dict : List (String × PyVal) → PyVal

/-- Evaluation of a fragment of Python code: either a value, or a raised
exception carrying `str(e)`. -/
abbrev PyM := Except String

/-- Truthiness of a Python value (`if not captions`, `if thumbnails`, ...):
empty strings, empty lists, empty dicts and zero are falsy. -/
def truthy : PyVal → Bool
  | .str s => !(s == "")
  | .num n => !(n == 0)
  | .list l => !l.isEmpty
  | .dict l => !l.isEmpty

/-- `str(KeyError(k))` in CPython is the key wrapped in single quotes. -/
def keyErrorMsg (k : String) : String :=
  String.singleton (Char.ofNat 39) ++ k ++ String.singleton (Char.ofNat 39)

/-- Python `d.get(k, default)`: total on dicts, raises on other values
(`AttributeError`). -/
def pyGet : PyVal → String → PyVal → PyM PyVal
  | .dict kvs, k, d => pure ((kvs.lookup k).getD d)
  | _, _, _ => throw "AttributeError"

/-- Python subscript `v[k]` with a string key: raises `KeyError` when the
key is missing and `TypeError` on non-dicts. -/
def idx : PyVal → String → PyM PyVal
  | .dict kvs, k =>
    match kvs.lookup k with
    | some v => pure v
    | none => throw (keyErrorMsg k)
  | _, _ => throw "TypeError"

/-- Python `v[-1]` on a list (`thumbnails[-1]`). -/
def pyLast : PyVal → PyM PyVal
  | .list l =>
    match l.getLast? with
    | some v => pure v
    | none => throw "list index out of range"
  | _ => throw "TypeError"

/-- Python `for x in v` over a value expected to be a list. -/
def pyIter : PyVal → PyM (List PyVal)
  | .list l => pure l
  | _ => throw "TypeError"

/-- Python `v == s` where `s` is a string: only a string value can compare
equal. -/
def pyEqStr (v : PyVal) (s : String) : Bool :=
  match v with
  | .str t => t == s
  | _ => false

/-- A value expected to be a string (the caption track `baseUrl` fed to
`requests.get`). -/
def asStr : PyVal → PyM String
  | .str s => pure s
  | _ => throw "TypeError"

/-- One child element of the caption XML root as seen by the handler:
its tag, the `start` and `dur` attributes (already parsed to rationals,
absent when the attribute is missing), and `ElementTree`'s `.text`. -/
structure Element where
  tag : String
  startAttr : Option Rat
  durAttr : Option Rat
  textAttr : Option String
deriving DecidableEq

/-- `root.findall(t)`: the direct children with the given tag, in document
order. -/
def findall (doc : List Element) (t : String) : List Element :=
  doc.filter (fun e => e.tag == t)

/-- `float(attrib.get(k, 0))` on an already-parsed attribute. -/
def attrFloat (v : Option Rat) : Rat :=
  v.getD 0

/-- Python `text.text or ""`. -/
def textOrEmpty : Option String → String
  | some s => s
  | none => ""

/-- The `parsed_captions` list comprehension of `get_captions`
(src/TranscriptFetch.py lines 141-148): one record per `<text>` child of
the root. -/
def parsedCaptions (doc : List Element) : List PyVal :=
  (findall doc "text").map (fun e =>
    .dict [("start", .num (attrFloat e.startAttr)),
           ("duration", .num (attrFloat e.durAttr)),
           ("text", .str (textOrEmpty e.textAttr))])

/-- Python `sep.join(xs)`. -/
def pyJoin (sep : String) : List String → String
  | [] => ""
  | x :: xs => xs.foldl (fun acc s => acc ++ sep ++ s) x

/-- Whether `pat` is a prefix of the character list. -/
def listStartsWith : List Char → List Char → Bool
  | [], _ => true
  | _ :: _, [] => false
  | p :: ps, c :: cs => p == c && listStartsWith ps cs

/-- Worker for `pyReplace`: when the counter is positive we are skipping
the tail of a replaced occurrence; at zero we look for the next leftmost
occurrence. -/
def replAux (pat rep : List Char) : Nat → List Char → List Char
  | _, [] => []
  | k + 1, _ :: cs => replAux pat rep k cs
  | 0, c :: cs =>
    if listStartsWith pat (c :: cs) then
      rep ++ replAux pat rep (pat.length - 1) cs
    else
      c :: replAux pat rep 0 cs

/-- Python `s.replace(pat, rep)` for a non-empty pattern: leftmost,
non-overlapping occurrences. -/
def pyReplace (s pat rep : String) : String :=
  ⟨replAux pat.data rep.data 0 s.data⟩

/-- Python `s.lower()` (ASCII case, which is all the handler compares). -/
def pyLower (s : String) : String :=
  ⟨s.data.map Char.toLower⟩

/-- The query parameters and the one header the service reads, each
`none` when absent from the request. -/
structure Request where
  video_id : Option String
  language : Option String
  timestamps : Option String
  api_key_header : Option String

/-- The two external effects of one `/captions` request: the result of
`client.player(video_id=...)`, and the caption download plus XML parse
for a given `baseUrl` (an `Except.error` models a raised exception in
either step). -/
structure World where
  player : PyM PyVal
  fetch : String → PyM (List Element)

/-- `thumbnails[-1]["url"] if thumbnails else default` — the conditional
expressions at src/TranscriptFetch.py lines 79 and 89. -/
def lastUrlOr (v : PyVal) (d : String) : PyM PyVal :=
  if truthy v then do idx (← pyLast v) "url" else pure (.str d)

/-- The metadata-extraction prefix of the `try` block
(src/TranscriptFetch.py lines 74-91): title, thumbnail, channel name,
channel logo, and the caption-track list, each defaulted through `.get`
chains exactly as in the source. -/
def extractMeta (player_data : PyVal) : PyM (PyVal × PyVal × PyVal × PyVal × PyVal) := do
  let video_details ← pyGet player_data "videoDetails" (.dict [])
  let video_title ← pyGet video_details "title" (.str "Unknown Title")
  let thumbOuter ← pyGet video_details "thumbnail" (.dict [])
  let thumbnails ← pyGet thumbOuter "thumbnails" (.list [])
  let thumbnail ← lastUrlOr thumbnails "No Thumbnail Available"
  let channel_name ← pyGet video_details "author" (.str "Unknown Channel")
  let chan0 ← pyGet video_details "channelThumbnailSupportedRenderers" (.dict [])
  let chan1 ← pyGet chan0 "channelThumbnailWithLinkRenderer" (.dict [])
  let chan2 ← pyGet chan1 "thumbnail" (.dict [])
  let channel_thumbnails ← pyGet chan2 "thumbnails" (.list [])
  let channel_logo ← lastUrlOr channel_thumbnails "No Channel Logo Available"
  let caps0 ← pyGet player_data "captions" (.dict [])
  let caps1 ← pyGet caps0 "playerCaptionsTracklistRenderer" (.dict [])
  let captions ← pyGet caps1 "captionTracks" (.list [])
  pure (video_title, thumbnail, channel_name, channel_logo, captions)

/-- One entry of the `available_languages` comprehension
(src/TranscriptFetch.py lines 104-110): direct subscripts, so a missing
key raises. -/
def availableEntry (caption : PyVal) : PyM PyVal := do
  let lc ← idx caption "languageCode"
  let nm ← idx caption "name"
  let st ← idx nm "simpleText"
  pure (.dict [("languageCode", lc), ("name", st)])

/-- Effectful map over a list, as a Python list comprehension evaluates. -/
def mapExcept (f : PyVal → PyM PyVal) : List PyVal → PyM (List PyVal)
  | [] => pure []
  | x :: xs => do
    let y ← f x
    let ys ← mapExcept f xs
    pure (y :: ys)

/-- `next((c for c in captions if c["languageCode"] == selected_language), None)`
(src/TranscriptFetch.py lines 121-124), including the `KeyError` a track
without `languageCode` raises while the generator runs. -/
def findSelected (lang : String) : List PyVal → PyM (Option PyVal)
  | [] => pure none
  | c :: rest => do
    let lc ← idx c "languageCode"
    if pyEqStr lc lang then pure (some c) else findSelected lang rest

/-- The body of the `try` block of `get_captions`
(src/TranscriptFetch.py lines 68-178), returning the status code and
JSON body. -/
def tryBody (video_id : String) (selected_language : Option String)
    (timestamps : Bool) (w : World) : PyM (Nat × PyVal) := do
  let player_data ← w.player
  let (video_title, thumbnail, channel_name, channel_logo, captions) ← extractMeta player_data
  if ! truthy captions then
    return (404, .dict [("error", .str "No captions available for this video."),
      ("video_title", video_title), ("thumbnail", thumbnail),
      ("channel_name", channel_name), ("channel_logo", channel_logo)])
  let capList ← pyIter captions
  let lang := selected_language.getD ""
  if lang = "" then
    let available ← mapExcept availableEntry capList
    return (200, .dict [("video_id", .str video_id), ("video_title", video_title),
      ("thumbnail", thumbnail), ("channel_name", channel_name),
      ("channel_logo", channel_logo), ("available_languages", .list available)])
  let selected ← findSelected lang capList
  let lang404 : Nat × PyVal :=
    (404, .dict [("error", .str ("No captions available for the selected language: " ++ lang)),
      ("video_title", video_title), ("thumbnail", thumbnail),
      ("channel_name", channel_name), ("channel_logo", channel_logo)])
  match selected with
  | none => return lang404
  | some selected_caption =>
    if ! truthy selected_caption then
      return lang404
    else
      let burl ← idx selected_caption "baseUrl"
      let url ← asStr burl
      let doc ← w.fetch url
      let parsed := parsedCaptions doc
      if timestamps then
        return (200, .dict [("video_id", .str video_id), ("video_title", video_title),
          ("thumbnail", thumbnail), ("channel_name", channel_name),
          ("channel_logo", channel_logo), ("languageCode", .str lang),
          ("timestamped_captions", .list parsed)])
      else
        -- `" ".join(text["text"] for text in parsed_captions if text["text"])`:
        -- the "text" field of each parsed record is `textOrEmpty e.textAttr`.
        let joined := pyJoin " "
          (((findall doc "text").map (fun e => textOrEmpty e.textAttr)).filter
            (fun s => !(s == "")))
        let replaced := pyReplace joined "&#39;" " ; "
        let concatenated := pyReplace replaced "\n" "  "
        return (200, .dict [("video_id", .str video_id), ("video_title", video_title),
          ("thumbnail", thumbnail), ("channel_name", channel_name),
          ("channel_logo", channel_logo), ("languageCode", .str lang),
          ("captions", .str concatenated)])

/-- The `/captions` route handler `get_captions`
(src/TranscriptFetch.py lines 55-182): parameter parsing, the falsy
`video_id` guard, and the catch-all `except` clause mapping a raised
exception to status 500 with its message. -/
def get_captions (req : Request) (w : World) : Nat × PyVal :=
  let video_id := req.video_id.getD ""
  let selected_language := req.language
  let timestamps := pyLower (req.timestamps.getD "false") == "true"
  if video_id = "" then
    (400, .dict [("error", .str "Missing video_id parameter")])
  else
    match tryBody video_id selected_language timestamps w with
    | .ok r => r
    | .error msg => (500, .dict [("error", .str msg)])

/-- The `/` route handler `home` (src/TranscriptFetch.py lines 33-52). -/
def home : Nat × PyVal :=
  (200, .dict [("message", .str "Welcome to the YouTube Caption API Service."),
    ("endpoints", .dict [("/captions", .dict [
      ("description", .str "Fetch and parse captions for a YouTube video."),
      ("parameters", .dict [
        ("video_id", .str "Required. The YouTube video ID."),
        ("language", .str "Optional. The language code to fetch captions in a specific language."),
        ("timestamps", .str "Optional. Set to true to include timestamps in the response.")]),
      ("notes", .str "If the language parameter is not provided, the API returns available languages for the video.")])]),
    ("status", .str "API is operational.")])

/-- `validate_api_key` (src/TranscriptFetch.py lines 16-21): the
`x-api-key` header compared against the `API_KEY` module binding, both
`none` when absent. -/
def validate_api_key (apiKey : Option String) (req : Request) : Bool :=
  req.api_key_header == apiKey

/-- `enforce_api_key` (src/TranscriptFetch.py lines 24-30): the
`before_request` hook, `some` response short-circuiting dispatch. -/
def enforce_api_key (apiKey : Option String) (req : Request) : Option (Nat × PyVal) :=
  if ! validate_api_key apiKey req then
    some (403, .dict [("error", .str "Unauthorized access. Invalid API key.")])
  else
    none

/-- The two registered routes. -/
inductive Route where
  | home
  | captions
deriving DecidableEq

/-- The URL rule of each registered route, from the `@app.route`
decorators. -/
def Route.path : Route → String
  | .home => "/"
  | .captions => "/captions"

/-- The route table built by the `@app.route` decorators
(src/TranscriptFetch.py lines 33 and 55). -/
def registeredRoutes : List String :=
  [Route.home.path, Route.captions.path]

/-- Dispatch to the matched route's handler. -/
def routeDispatch : Route → Request → World → Nat × PyVal
  | .home, _, _ => home
  | .captions, req, w => get_captions req w

/-- Flask request processing for a matched route: `before_request` hooks
first, then the handler. -/
def handleRequest (apiKey : Option String) (r : Route) (req : Request) (w : World) :
    Nat × PyVal :=
  match enforce_api_key apiKey req with
  | some resp => resp
  | none => routeDispatch r req w

/-- The module-level state route handling can read: the `API_KEY`
binding (line 13).  No handler assigns any module-level name, which the
step function below makes explicit. -/
structure ServerState where
  apiKey : Option String

/-- One request handled by the running server: the response, and the
server state as later requests will see it. -/
def serverStep (s : ServerState) (r : Route) (req : Request) (w : World) :
    ServerState × (Nat × PyVal) :=
  (s, handleRequest s.apiKey r req w)

/-- Lookup in a JSON response body. -/
def bodyGet : PyVal → String → Option PyVal
  | .dict kvs, k => kvs.lookup k
  | _, _ => none

/-- A caption-track `name` object with a `simpleText` field. -/
def mkName (nm : String) : PyVal :=
  .dict [("simpleText", .str nm)]

/-- A well-formed caption track as the claims describe one. -/
def mkTrack (lc nm url : String) : PyVal :=
  .dict [("languageCode", .str lc), ("name", mkName nm), ("baseUrl", .str url)]

/-- A thumbnail entry carrying its `url`. -/
def mkThumb (u : String) : PyVal :=
  .dict [("url", .str u)]

/-- An optional string-valued dict entry: absent when `none`. -/
def optStrField (k : String) : Option String → List (String × PyVal)
  | some v => [(k, .str v)]
  | none => []

/-- An optional `thumbnail.thumbnails` nesting: absent when `none`. -/
def thumbsField (k : String) : Option (List String) → List (String × PyVal)
  | some us => [(k, .dict [("thumbnails", .list (us.map mkThumb))])]
  | none => []

/-- The optional channel-thumbnail nesting the handler walks. -/
def chanField : Option (List String) → List (String × PyVal)
  | some us => [("channelThumbnailSupportedRenderers", .dict
      [("channelThumbnailWithLinkRenderer", .dict
        [("thumbnail", .dict [("thumbnails", .list (us.map mkThumb))])])])]
  | none => []

/-- A `videoDetails` object covering the shapes the claims quantify over:
each field independently present or missing. -/
def mkVideoDetails (t? a? : Option String) (th? ch? : Option (List String)) : PyVal :=
  .dict (optStrField "title" t? ++ thumbsField "thumbnail" th? ++
    optStrField "author" a? ++ chanField ch?)

/-- The optional `captions.playerCaptionsTracklistRenderer.captionTracks`
nesting. -/
def capsField : Option (List PyVal) → List (String × PyVal)
  | some ts => [("captions", .dict [("playerCaptionsTracklistRenderer", .dict
      [("captionTracks", .list ts)])])]
  | none => []

/-- A player response built from a `videoDetails` object and an optional
caption-track list. -/
def mkPlayerData (vd : PyVal) (tracks? : Option (List PyVal)) : PyVal :=
  .dict (("videoDetails", vd) :: capsField tracks?)

/-- A `World` whose player call succeeds with the given data and whose
caption download parses to the given document whatever the URL. -/
def stdWorld (pd : PyVal) (doc : List Element) : World :=
  ⟨.ok pd, fun _ => .ok doc⟩

/-- The metadata fields shared by the successful response bodies, with the
defaults the extraction produces on missing pieces. -/
def metaFields (vid : String) (t? a? : Option String) (th? ch? : Option (List String)) :
    List (String × PyVal) :=
  [("video_id", .str vid),
   ("video_title", .str (t?.getD "Unknown Title")),
   ("thumbnail", .str ((th?.getD []).getLast?.getD "No Thumbnail Available")),
   ("channel_name", .str (a?.getD "Unknown Channel")),
   ("channel_logo", .str ((ch?.getD []).getLast?.getD "No Channel Logo Available"))]

/-- The flat transcript the handler builds when `timestamps` is false:
non-empty record texts joined by single spaces, then the two `replace`
rewrites. -/
def flatText (doc : List Element) : String :=
  pyReplace
    (pyReplace
      (pyJoin " " (((findall doc "text").map (fun e => textOrEmpty e.textAttr)).filter
        (fun s => !(s == ""))))
      "&#39;" " ; ")
    "\n" "  "

theorem pym_bind_ok {α β : Type} (a : α) (f : α → PyM β) :
    (Except.ok a : PyM α) >>= f = f a := rfl

theorem pym_bind_error {α β : Type} (e : String) (f : α → PyM β) :
    (Except.error e : PyM α) >>= f = Except.error e := rfl

theorem pym_pure {α : Type} (a : α) : (pure a : PyM α) = Except.ok a := rfl

theorem textOrEmpty_eq (t : Option String) : textOrEmpty t = t.getD "" := by
  cases t <;> rfl

theorem getLast?_map_mkThumb (us : List String) :
    (us.map mkThumb).getLast? = us.getLast?.map mkThumb := by
  induction us with
  | nil => rfl
  | cons u rest ih =>
    cases rest with
    | nil => rfl
    | cons v vs => simpa [List.getLast?_cons_cons] using ih

theorem lastUrlOr_mk (us : List String) (d : String) :
    lastUrlOr (.list (us.map mkThumb)) d = Except.ok (.str (us.getLast?.getD d)) := by
  cases us with
  | nil => rfl
  | cons u rest =>
    have hne : (u :: rest) ≠ ([] : List String) := by simp
    have hlast := List.getLast?_eq_getLast (u :: rest) hne
    simp only [lastUrlOr, truthy, List.map_cons, List.isEmpty_cons, Bool.not_false,
      if_pos, pyLast]
    rw [show (mkThumb u :: List.map mkThumb rest).getLast? =
      ((u :: rest).map mkThumb).getLast? from rfl, getLast?_map_mkThumb, hlast]
    simp [idx, mkThumb, List.lookup, hlast, pym_pure, pym_bind_ok]

theorem lastUrlOr_nil (d : String) :
    lastUrlOr (.list []) d = Except.ok (.str d) := rfl

theorem pyGet_dict (kvs : List (String × PyVal)) (k : String) (d : PyVal) :
    pyGet (.dict kvs) k d = Except.ok ((kvs.lookup k).getD d) := rfl

set_option maxHeartbeats 2000000 in
theorem extractMeta_mk (t? a? : Option String) (th? ch? : Option (List String))
    (tracks? : Option (List PyVal)) :
    extractMeta (mkPlayerData (mkVideoDetails t? a? th? ch?) tracks?) =
      Except.ok (.str (t?.getD "Unknown Title"),
        .str ((th?.getD []).getLast?.getD "No Thumbnail Available"),
        .str (a?.getD "Unknown Channel"),
        .str ((ch?.getD []).getLast?.getD "No Channel Logo Available"),
        .list (tracks?.getD [])) := by
  cases t? <;> cases a? <;> cases th? <;> cases ch? <;> cases tracks? <;>
    simp [extractMeta, mkPlayerData, mkVideoDetails, optStrField, thumbsField,
      chanField, capsField, pyGet_dict, List.lookup, pym_bind_ok, pym_pure,
      lastUrlOr_mk, lastUrlOr_nil]

theorem mapExcept_available (ps : List (String × String × String)) :
    mapExcept availableEntry (ps.map (fun p => mkTrack p.1 p.2.1 p.2.2)) =
      Except.ok (ps.map (fun p =>
        PyVal.dict [("languageCode", .str p.1), ("name", .str p.2.1)])) := by
  induction ps with
  | nil => rfl
  | cons p rest ih =>
    have hhead : availableEntry (mkTrack p.1 p.2.1 p.2.2) =
        Except.ok (.dict [("languageCode", .str p.1), ("name", .str p.2.1)]) := by
      simp [availableEntry, mkTrack, mkName, idx, List.lookup, pym_bind_ok, pym_pure]
    simp [mapExcept, hhead, ih, pym_bind_ok, pym_pure]

theorem findSelected_mk (lang : String) (ps : List (String × String × String))
    (h : ∃ p ∈ ps, p.1 = lang) :
    ∃ nm url, findSelected lang (ps.map (fun p => mkTrack p.1 p.2.1 p.2.2)) =
      Except.ok (some (mkTrack lang nm url)) := by
  induction ps with
  | nil => simp at h
  | cons p rest ih =>
    have hhead : idx (mkTrack p.1 p.2.1 p.2.2) "languageCode" =
        Except.ok (.str p.1) := by
      simp [idx, mkTrack, mkName, List.lookup, pym_pure]
    by_cases hp : p.1 = lang
    · refine ⟨p.2.1, p.2.2, ?_⟩
      subst hp
      simp [findSelected, hhead, pym_bind_ok, pym_pure, pyEqStr]
    · obtain ⟨q, hq, hq1⟩ := h
      rcases List.mem_cons.mp hq with rfl | hq2
      · exact absurd hq1 hp
      · obtain ⟨nm, url, hfind⟩ := ih ⟨q, hq2, hq1⟩
        refine ⟨nm, url, ?_⟩
        simp [findSelected, hhead, pym_bind_ok, pyEqStr, hp, hfind]

set_option maxHeartbeats 2000000 in
theorem tryBody_selected (vid lang : String) (hlang : lang ≠ "") (ts : Bool)
    (t? a? : Option String) (th? ch? : Option (List String))
    (ps : List (String × String × String)) (doc : List Element)
    (hm : ∃ p ∈ ps, p.1 = lang) :
    tryBody vid (some lang) ts
        (stdWorld (mkPlayerData (mkVideoDetails t? a? th? ch?)
          (some (ps.map (fun p => mkTrack p.1 p.2.1 p.2.2)))) doc) =
      Except.ok (200, .dict (metaFields vid t? a? th? ch? ++
        [("languageCode", .str lang)] ++
        (if ts then [("timestamped_captions", .list (parsedCaptions doc))]
         else [("captions", .str (flatText doc))]))) := by
  obtain ⟨nm, url, hfind⟩ := findSelected_mk lang ps hm
  have hne : ps ≠ [] := by rintro rfl; simp at hm
  have htr : truthy (.list (ps.map fun p => mkTrack p.1 p.2.1 p.2.2)) = true := by
    cases ps with
    | nil => exact absurd rfl hne
    | cons p rest => simp [truthy]
  have htrk : truthy (mkTrack lang nm url) = true := by simp [truthy, mkTrack]
  have hburl : idx (mkTrack lang nm url) "baseUrl" = Except.ok (.str url) := by
    simp [idx, mkTrack, mkName, List.lookup, pym_pure]
  cases ts <;>
    simp [tryBody, stdWorld, pym_bind_ok, pym_pure, extractMeta_mk, htr, hfind,
      hlang, pyIter, htrk, hburl, asStr, metaFields, flatText]

set_option maxHeartbeats 2000000 in
theorem tryBody_available (vid : String) (ts : Bool)
    (t? a? : Option String) (th? ch? : Option (List String))
    (ps : List (String × String × String)) (hps : ps ≠ []) (doc : List Element) :
    tryBody vid none ts
        (stdWorld (mkPlayerData (mkVideoDetails t? a? th? ch?)
          (some (ps.map (fun p => mkTrack p.1 p.2.1 p.2.2)))) doc) =
      Except.ok (200, .dict (metaFields vid t? a? th? ch? ++
        [("available_languages", .list (ps.map (fun p =>
          PyVal.dict [("languageCode", .str p.1), ("name", .str p.2.1)])))])) := by
  have htr : truthy (.list (ps.map fun p => mkTrack p.1 p.2.1 p.2.2)) = true := by
    cases ps with
    | nil => exact absurd rfl hps
    | cons p rest => simp [truthy]
  simp [tryBody, stdWorld, pym_bind_ok, pym_pure, extractMeta_mk, htr, pyIter,
    mapExcept_available, metaFields]

/-- Claim C1: for every request to a registered route, a `x-api-key` header
differing from the configured `API_KEY` yields status 403 with the
unauthorized JSON body and the route handler is not executed (the
response is independent of the route and of the external world), while a
matching header dispatches to the route handler. -/
theorem api_key_gate (apiKey : Option String) (r : Route) (req : Request) (w : World) :
    handleRequest apiKey r req w =
      if req.api_key_header == apiKey then routeDispatch r req w
      else (403, .dict [("error", .str "Unauthorized access. Invalid API key.")]) := by
  cases h : req.api_key_header == apiKey <;>
    simp [handleRequest, enforce_api_key, validate_api_key, h]

/-- Claim C2: with `API_KEY` unset (the configured key is `none`) and no
`x-api-key` header, `validate_api_key` returns true, so every route is
dispatched to its handler without authentication. -/
theorem unset_key_open_access :
    (∀ req : Request, req.api_key_header = none → validate_api_key none req = true) ∧
    (∀ (r : Route) (req : Request) (w : World), req.api_key_header = none →
      handleRequest none r req w = routeDispatch r req w) := by
  constructor
  · intro req h
    simp [validate_api_key, h]
  · intro r req w h
    simp [handleRequest, enforce_api_key, validate_api_key, h]

/-- Witness for C2 at a concrete headerless `/captions` request. -/
theorem unset_key_open_access_witness :
    validate_api_key none ⟨some "v", none, none, none⟩ = true ∧
    handleRequest none Route.captions ⟨some "v", none, none, none⟩
        (stdWorld (.dict []) []) =
      routeDispatch Route.captions ⟨some "v", none, none, none⟩ (stdWorld (.dict []) []) :=
  ⟨unset_key_open_access.1 _ rfl, unset_key_open_access.2 _ _ _ rfl⟩

/-- Claim C3: parsing the caption XML produces exactly one record per
`<text>` child of the root, in document order, with `start` the value of
the `start` attribute defaulted to 0, `duration` the value of `dur`
defaulted to 0, and `text` the text content defaulted to the empty
string. -/
theorem parse_one_record_per_text (doc : List Element) :
    parsedCaptions doc = (doc.filter (fun e => e.tag == "text")).map (fun e =>
      PyVal.dict [("start", .num (e.startAttr.getD 0)),
        ("duration", .num (e.durAttr.getD 0)),
        ("text", .str (e.textAttr.getD ""))]) := by
  simp [parsedCaptions, findall, attrFloat, textOrEmpty_eq]

/-- Claim C4: on a `/captions` request with a video id and a language
whose caption track exists, the `timestamps` parameter is interpreted as
true exactly when its lowercased value is the string true (absent
defaults to false); when true the body carries the timestamped records
under `timestamped_captions` and no `captions` key, and when false it
instead carries the flat transcript string under `captions` and no
`timestamped_captions` key. -/
theorem captions_timestamps_mode (vid lang : String) (hvid : vid ≠ "")
    (hlang : lang ≠ "") (ts? key? t? a? : Option String)
    (th? ch? : Option (List String)) (ps : List (String × String × String))
    (hm : ∃ p ∈ ps, p.1 = lang) (doc : List Element) :
    get_captions ⟨some vid, some lang, ts?, key?⟩
        (stdWorld (mkPlayerData (mkVideoDetails t? a? th? ch?)
          (some (ps.map (fun p => mkTrack p.1 p.2.1 p.2.2)))) doc) =
      (200, .dict (metaFields vid t? a? th? ch? ++ [("languageCode", .str lang)] ++
        (if pyLower (ts?.getD "false") == "true" then
          [("timestamped_captions", .list (parsedCaptions doc))]
         else [("captions", .str (flatText doc))]))) ∧
    ((pyLower (ts?.getD "false") == "true") = true →
      bodyGet (get_captions ⟨some vid, some lang, ts?, key?⟩
        (stdWorld (mkPlayerData (mkVideoDetails t? a? th? ch?)
          (some (ps.map (fun p => mkTrack p.1 p.2.1 p.2.2)))) doc)).2 "captions" = none) ∧
    ((pyLower (ts?.getD "false") == "true") = false →
      bodyGet (get_captions ⟨some vid, some lang, ts?, key?⟩
        (stdWorld (mkPlayerData (mkVideoDetails t? a? th? ch?)
          (some (ps.map (fun p => mkTrack p.1 p.2.1 p.2.2)))) doc)).2
        "timestamped_captions" = none) := by
  have h := tryBody_selected vid lang hlang (pyLower (ts?.getD "false") == "true")
    t? a? th? ch? ps doc hm
  have hresp : get_captions ⟨some vid, some lang, ts?, key?⟩
      (stdWorld (mkPlayerData (mkVideoDetails t? a? th? ch?)
        (some (ps.map (fun p => mkTrack p.1 p.2.1 p.2.2)))) doc) =
      (200, .dict (metaFields vid t? a? th? ch? ++ [("languageCode", .str lang)] ++
        (if pyLower (ts?.getD "false") == "true" then
          [("timestamped_captions", .list (parsedCaptions doc))]
         else [("captions", .str (flatText doc))]))) := by
    simp [get_captions, hvid, h]
  refine ⟨hresp, ?_, ?_⟩ <;> intro hts <;> rw [hresp] <;>
    simp [hts, bodyGet, metaFields, List.lookup]

/-- Witness for C4 in both modes at concrete requests. -/
theorem captions_timestamps_mode_witness :
    (get_captions ⟨some "v", some "en", some "TRUE", none⟩
        (stdWorld (mkPlayerData (mkVideoDetails none none none none)
          (some ([("en", "English", "u")].map (fun p => mkTrack p.1 p.2.1 p.2.2))))
          [⟨"text", some 0, some 1, some "hi"⟩]) =
      (200, .dict (metaFields "v" none none none none ++ [("languageCode", .str "en")] ++
        (if pyLower ((some "TRUE").getD "false") == "true" then
          [("timestamped_captions", .list (parsedCaptions [⟨"text", some 0, some 1, some "hi"⟩]))]
         else [("captions", .str (flatText [⟨"text", some 0, some 1, some "hi"⟩]))])))) ∧
    ((pyLower ((some "TRUE").getD "false") == "true") = true →
      bodyGet (get_captions ⟨some "v", some "en", some "TRUE", none⟩
        (stdWorld (mkPlayerData (mkVideoDetails none none none none)
          (some ([("en", "English", "u")].map (fun p => mkTrack p.1 p.2.1 p.2.2))))
          [⟨"text", some 0, some 1, some "hi"⟩])).2 "captions" = none) ∧
    ((pyLower ((some "TRUE").getD "false") == "true") = false →
      bodyGet (get_captions ⟨some "v", some "en", some "TRUE", none⟩
        (stdWorld (mkPlayerData (mkVideoDetails none none none none)
          (some ([("en", "English", "u")].map (fun p => mkTrack p.1 p.2.1 p.2.2))))
          [⟨"text", some 0, some 1, some "hi"⟩])).2 "timestamped_captions" = none) :=
  captions_timestamps_mode "v" "en" (by decide) (by decide) (some "TRUE") none
    none none none none [("en", "English", "u")] (by decide)
    [⟨"text", some 0, some 1, some "hi"⟩]

/-- Counterexample to C5 as stated: with parsed texts a, empty, b-newline-c,
the claim predicts the unaltered space-join (the `pyJoin` conjunct), but
the handler returns a string with the empty text dropped and the newline
rewritten to two spaces. -/
theorem flat_transcript_counterexample :
    bodyGet (get_captions ⟨some "v", some "en", none, none⟩
        (stdWorld (mkPlayerData (mkVideoDetails none none none none)
          (some [mkTrack "en" "English" "u"]))
          [⟨"text", some 0, some 1, some "a"⟩, ⟨"text", none, none, some ""⟩,
           ⟨"text", none, none, some "b\nc"⟩])).2 "captions" =
      some (.str "a b  c") ∧
    pyJoin " " ["a", "", "b\nc"] = "a  b\nc" ∧
    "a b  c" ≠ "a  b\nc" := by
  refine ⟨rfl, rfl, by decide⟩

/-- Claim C5 as amended: when `timestamps` is false the `captions` value
is the texts of the parsed records with empty texts dropped, joined by
single spaces, and then with every occurrence of the entity `&#39;`
replaced by space-semicolon-space and every newline replaced by two
spaces. -/
theorem flat_transcript_formula (vid lang : String) (hvid : vid ≠ "")
    (hlang : lang ≠ "") (ts? key? t? a? : Option String)
    (th? ch? : Option (List String)) (ps : List (String × String × String))
    (hm : ∃ p ∈ ps, p.1 = lang) (doc : List Element)
    (hts : (pyLower (ts?.getD "false") == "true") = false) :
    bodyGet (get_captions ⟨some vid, some lang, ts?, key?⟩
        (stdWorld (mkPlayerData (mkVideoDetails t? a? th? ch?)
          (some (ps.map (fun p => mkTrack p.1 p.2.1 p.2.2)))) doc)).2 "captions" =
      some (.str (pyReplace (pyReplace (pyJoin " "
        (((findall doc "text").map (fun e => textOrEmpty e.textAttr)).filter
          (fun s => !(s == "")))) "&#39;" " ; ") "\n" "  ")) := by
  have h := tryBody_selected vid lang hlang (pyLower (ts?.getD "false") == "true")
    t? a? th? ch? ps doc hm
  rw [hts] at h
  simp only [Bool.false_eq_true, if_false] at h
  simp [get_captions, hvid, hts, h, bodyGet, metaFields, List.lookup, flatText]

/-- Witness for the amended C5 at a concrete request. -/
theorem flat_transcript_formula_witness :
    bodyGet (get_captions ⟨some "v", some "en", none, none⟩
        (stdWorld (mkPlayerData (mkVideoDetails none none none none)
          (some ([("en", "English", "u")].map (fun p => mkTrack p.1 p.2.1 p.2.2))))
          [⟨"text", some 0, some 1, some "don&#39;t"⟩])).2 "captions" =
      some (.str (pyReplace (pyReplace (pyJoin " "
        (((findall [⟨"text", some 0, some 1, some "don&#39;t"⟩] "text").map
            (fun e => textOrEmpty e.textAttr)).filter
          (fun s => !(s == "")))) "&#39;" " ; ") "\n" "  ")) :=
  flat_transcript_formula "v" "en" (by decide) (by decide) none none none none
    none none [("en", "English", "u")] (by decide)
    [⟨"text", some 0, some 1, some "don&#39;t"⟩] rfl

/-- Claim C6: a `/captions` request with a video id and no language
parameter, against a video with a non-empty caption-track list, is
answered with one `available_languages` entry per track carrying its
`languageCode` and its name `simpleText`, alongside the metadata
fields. -/
theorem available_languages_listing (vid : String) (hvid : vid ≠ "")
    (ts? key? t? a? : Option String) (th? ch? : Option (List String))
    (ps : List (String × String × String)) (hps : ps ≠ []) (doc : List Element) :
    get_captions ⟨some vid, none, ts?, key?⟩
        (stdWorld (mkPlayerData (mkVideoDetails t? a? th? ch?)
          (some (ps.map (fun p => mkTrack p.1 p.2.1 p.2.2)))) doc) =
      (200, .dict (metaFields vid t? a? th? ch? ++
        [("available_languages", .list (ps.map (fun p =>
          PyVal.dict [("languageCode", .str p.1), ("name", .str p.2.1)])))])) := by
  have h := tryBody_available vid (pyLower (ts?.getD "false") == "true")
    t? a? th? ch? ps hps doc
  simp [get_captions, hvid, h]

/-- Witness for C6 at a concrete two-track request. -/
theorem available_languages_listing_witness :
    get_captions ⟨some "v", none, none, none⟩
        (stdWorld (mkPlayerData (mkVideoDetails (some "T") none none none)
          (some ([("en", "English", "u"), ("fr", "French", "w")].map
            (fun p => mkTrack p.1 p.2.1 p.2.2)))) []) =
      (200, .dict (metaFields "v" (some "T") none none none ++
        [("available_languages", .list ([("en", "English", "u"), ("fr", "French", "w")].map
          (fun p => PyVal.dict [("languageCode", .str p.1), ("name", .str p.2.1)])))])) :=
  available_languages_listing "v" (by decide) none none (some "T") none none none
    [("en", "English", "u"), ("fr", "French", "w")] (by decide) []

/-- Counterexample to C7 as stated: with a thumbnail entry lacking `url`,
the extraction raises `KeyError` (its message is the quoted key) rather
than returning a default, and the handler surfaces it as a 500 error
body instead of any metadata field. -/
theorem extraction_raises_counterexample :
    extractMeta (.dict [("videoDetails", .dict [("thumbnail", .dict
        [("thumbnails", .list [.dict []])])])]) =
      Except.error (keyErrorMsg "url") ∧
    get_captions ⟨some "v", none, none, none⟩
        ⟨.ok (.dict [("videoDetails", .dict [("thumbnail", .dict
          [("thumbnails", .list [.dict []])])])]), fun _ => .ok []⟩ =
      (500, .dict [("error", .str (keyErrorMsg "url"))]) :=
  ⟨rfl, rfl⟩

/-- Claim C7 as amended: the `.get`-with-default extraction is total —
over every combination of missing title, author, thumbnail and channel
nesting and missing caption-track list it returns the field or the
documented default and raises nothing — provided the values it then
subscripts carry their keys (thumbnail entries a `url`); subscripting a
missing key raises instead of defaulting. -/
theorem metadata_extraction_total (t? a? : Option String)
    (th? ch? : Option (List String)) (tracks? : Option (List PyVal)) :
    extractMeta (mkPlayerData (mkVideoDetails t? a? th? ch?) tracks?) =
      Except.ok (.str (t?.getD "Unknown Title"),
        .str ((th?.getD []).getLast?.getD "No Thumbnail Available"),
        .str (a?.getD "Unknown Channel"),
        .str ((ch?.getD []).getLast?.getD "No Channel Logo Available"),
        .list (tracks?.getD [])) :=
  extractMeta_mk t? a? th? ch? tracks?

/-- Claim C8: once a `/captions` request has a non-empty video id, any
exception raised inside the `try` block is caught and answered with
status 500 and a JSON body carrying the exception message; nothing
propagates. -/
theorem handler_catches_exceptions (req : Request) (w : World) (msg : String)
    (hvid : req.video_id.getD "" ≠ "")
    (herr : tryBody (req.video_id.getD "") req.language
      (pyLower (req.timestamps.getD "false") == "true") w = Except.error msg) :
    get_captions req w = (500, .dict [("error", .str msg)]) := by
  simp [get_captions, hvid, herr]

/-- Witness for C8: a failing metadata client call surfaces as a 500. -/
theorem handler_catches_exceptions_witness :
    get_captions ⟨some "v", none, none, none⟩
        ⟨Except.error "boom", fun _ => Except.ok []⟩ =
      (500, .dict [("error", .str "boom")]) :=
  handler_catches_exceptions ⟨some "v", none, none, none⟩
    ⟨Except.error "boom", fun _ => Except.ok []⟩ "boom" (by decide) rfl

/-- Counterexample to C9 as stated: the decorators register two routes,
not exactly one. -/
theorem single_route_counterexample : registeredRoutes.length ≠ 1 := by
  decide

/-- Claim C9 as amended: the implementation registers exactly two routes,
the informational root route and `/captions`, each with its own handler;
`/captions` is the single substantive endpoint. -/
theorem two_routes_two_handlers :
    registeredRoutes = ["/", "/captions"] ∧ registeredRoutes.length = 2 ∧
    (∀ (req : Request) (w : World), routeDispatch Route.home req w = home) ∧
    (∀ (req : Request) (w : World),
      routeDispatch Route.captions req w = get_captions req w) :=
  ⟨rfl, rfl, fun _ _ => rfl, fun _ _ => rfl⟩

/-- Claim C10: request handling is a stateless one-shot transformation —
the server state is unchanged by a step, the response is a function of
the configured key, the request and the external responses alone, and
handling an earlier request does not affect a later one. -/
theorem stateless_one_shot (s : ServerState) (r r0 : Route) (req req0 : Request)
    (w w0 : World) :
    (serverStep s r req w).1 = s ∧
    (serverStep s r req w).2 = handleRequest s.apiKey r req w ∧
    serverStep ((serverStep s r0 req0 w0).1) r req w = serverStep s r req w :=
  ⟨rfl, rfl, rfl⟩

end TranscriptFetch
